import Mathlib

/-!
Shallow embedding of the eBPF packet-filter pipeline of this repository:
`src/backend/ebpf/xdp_filter.c` (ingress decision pipeline) and
`src/backend/ebpf/tc_egress.c` (egress connection tracker).

Packet buffers are modelled as lists of bytes (`List Nat`, each read taken
mod 256), BPF maps as association lists or records, u64/u32 arithmetic as
`Nat` with explicit `% 2^64` where the C code can wrap.  Timestamps are
nanosecond counts; the two `bpf_ktime_get_ns()` calls inside one packet's
evaluation are modelled by a single `now` parameter.
-/

namespace KgProxy

/-- Wrapping u64 subtraction `a - b` (both operands are u64 values). -/
def wsub64 (a b : Nat) : Nat := (2 ^ 64 + a - b) % 2 ^ 64

/-- Read byte `i` of a packet buffer (memory bytes are 0..255; reads past
the checked bounds never happen in the embedded code paths). -/
def byteAt (buf : List Nat) (i : Nat) : Nat := buf.getD i 0 % 256

/-- Big-endian 16-bit load at offset `i` (network byte order, `bpf_ntohs`). -/
def be16 (buf : List Nat) (i : Nat) : Nat := byteAt buf i * 256 + byteAt buf (i + 1)

/-- Big-endian 32-bit load at offset `i` (an IPv4 address after `bpf_ntohl`). -/
def be32 (buf : List Nat) (i : Nat) : Nat :=
  byteAt buf i * 2 ^ 24 + byteAt buf (i + 1) * 2 ^ 16 + byteAt buf (i + 2) * 2 ^ 8 +
    byteAt buf (i + 3)

/-- The output of `parse_ip_packet`: the five out-parameters of the C
function (`src_ip` held in host byte order). -/
structure ParsedPacket where
  srcIp : Nat
  protocol : Nat
  dstPort : Nat
  srcPort : Nat
  isFragment : Bool
deriving DecidableEq

/-- `parse_ip_packet` of `xdp_filter.c` (lines 131-180): Ethernet header
bound check, EtherType check, minimal IPv4 header bound check, fragment
flag extraction, and L4 port extraction guarded by its own bound check
(ports stay 0 when the TCP/UDP header does not fit). -/
def parse_ip_packet (buf : List Nat) : Option ParsedPacket :=
  if buf.length < 14 then none
  else if ¬(byteAt buf 12 = 8 ∧ byteAt buf 13 = 0) then none
  else if buf.length < 34 then none
  else
    let src_ip := be32 buf 26
    let protocol := byteAt buf 23
    let ihl := byteAt buf 14 % 16
    if Nat.land (byteAt buf 20) 0x3F ≠ 0 ∨ byteAt buf 21 ≠ 0 then
      some ⟨src_ip, protocol, 0, 0, true⟩
    else if protocol = 6 then
      if 14 + ihl * 4 + 20 ≤ buf.length then
        some ⟨src_ip, protocol, be16 buf (14 + ihl * 4 + 2), be16 buf (14 + ihl * 4), false⟩
      else
        some ⟨src_ip, protocol, 0, 0, false⟩
    else if protocol = 17 then
      if 14 + ihl * 4 + 8 ≤ buf.length then
        some ⟨src_ip, protocol, be16 buf (14 + ihl * 4 + 2), be16 buf (14 + ihl * 4), false⟩
      else
        some ⟨src_ip, protocol, 0, 0, false⟩
    else
      some ⟨src_ip, protocol, 0, 0, false⟩

/-- Private/loopback source test of `xdp_filter.c` lines 202-208 (and the
identical destination test of `tc_egress.c` lines 65-78): 10.0.0.0/8,
172.16.0.0/12, 192.168.0.0/16, 127.0.0.0/8 on the host-order address. -/
def is_private_ip (a : Nat) : Bool :=
  (Nat.land a 0xFF000000 = 0x0A000000 : Bool) ||
  (Nat.land a 0xFFF00000 = 0xAC100000 : Bool) ||
  (Nat.land a 0xFFFF0000 = 0xC0A80000 : Bool) ||
  (Nat.land a 0xFF000000 = 0x7F000000 : Bool)

/-- One entry of an LPM-trie map (`struct lpm_key` plus its value). -/
structure LpmEntry where
  prefixLen : Nat
  network : Nat
  value : Nat
deriving DecidableEq

/-- Whether an LPM entry's prefix matches address `a` (comparison of the
top `prefixLen` bits, i.e. of the leading bytes of the network-order key). -/
def lpmMatches (e : LpmEntry) (a : Nat) : Bool :=
  a / 2 ^ (32 - e.prefixLen) = e.network / 2 ^ (32 - e.prefixLen)

/-- Longest-prefix-match lookup over an LPM-trie map's entries, as
`bpf_map_lookup_elem` performs on a `BPF_MAP_TYPE_LPM_TRIE` keyed by a
32-bit address (the most specific matching prefix wins). -/
def lpmLookup (t : List LpmEntry) (a : Nat) : Option Nat :=
  (t.foldl
    (fun acc e =>
      if lpmMatches e a then
        match acc with
        | none => some (e.prefixLen, e.value)
        | some (p, v) => if e.prefixLen > p then some (e.prefixLen, e.value) else some (p, v)
      else acc)
    none).map (fun pv => pv.2)

/-- Association-list lookup, modelling `bpf_map_lookup_elem` on a hash map. -/
def alookup {α : Type} (m : List (Nat × α)) (k : Nat) : Option α :=
  match m with
  | [] => none
  | (k', v) :: rest => if k' = k then some v else alookup rest k

/-- Association-list insert-or-replace, modelling `bpf_map_update_elem`
with `BPF_ANY` (LRU eviction under capacity pressure is not modelled; the
spec makes exact eviction order a non-invariant). -/
def aupdate {α : Type} (m : List (Nat × α)) (k : Nat) (v : α) : List (Nat × α) :=
  match m with
  | [] => [(k, v)]
  | (k', v') :: rest => if k' = k then (k, v) :: rest else (k', v') :: aupdate rest k v

/-- `struct rate_limit_entry` of `xdp_filter.c`. -/
structure RateLimitEntry where
  tokens : Nat
  last_update : Nat
deriving DecidableEq

/-- `struct packet_stats` of `xdp_filter.c` (the `pad` field is omitted). -/
structure PacketStats where
  packets : Nat
  bytes : Nat
  last_seen : Nat
  blocked : Nat
deriving DecidableEq

/-- `struct port_stats` of `xdp_filter.c`. -/
structure PortStats where
  packets : Nat
  bytes : Nat
deriving DecidableEq

/-- The five used slots of the `global_stats` array map (`STAT_TOTAL_PACKETS`,
`STAT_TOTAL_BYTES`, `STAT_BLOCKED`, `STAT_ALLOWED`, `STAT_RATE_LIMITED`);
array-map lookups always succeed, so the counters are plain fields. -/
structure GlobalStats where
  totalPackets : Nat
  totalBytes : Nat
  blocked : Nat
  allowed : Nat
  rateLimited : Nat
deriving DecidableEq

/-- Wrapping u64 counter increment (`__sync_fetch_and_add(cnt, 1)`). -/
def bump (n : Nat) : Nat := (n + 1) % 2 ^ 64

/-- All BPF-map state read or written by `xdp_traffic_filter`.  The
`config` array map defines index 0 = `hard_blocking` and index 1 =
`rate_limit_pps` (`xdp_filter.c` lines 88-97); both are u32 values and an
array lookup always succeeds, so they are plain fields. -/
structure FilterState where
  white_list : List LpmEntry
  blocked_ips : List LpmEntry
  geo_allowed : List LpmEntry
  allowed_ports : List (Nat × Nat)
  hard_blocking : Nat
  rate_limit_pps : Nat
  rate_limits : List (Nat × RateLimitEntry)
  ip_stats : List (Nat × PacketStats)
  port_stats : List (Nat × PortStats)
  global_stats : GlobalStats
deriving DecidableEq

/-- The XDP verdict values returned by the filter (`XDP_PASS` / `XDP_DROP`). -/
inductive XdpAction where
  | pass
  | drop
deriving DecidableEq

/-- Decision of the token-bucket section. -/
inductive RateDecision where
  | allowed
  | limited
deriving DecidableEq

/-- Token-bucket logic of section 5 of `xdp_traffic_filter` (lines 274-308),
for a configured rate `pps > 0`: refill by `elapsed * pps / 1e9` with the
elapsed time capped at one second, cap tokens at `pps`, consume one token
or report `limited` (leaving the bucket untouched); a first-seen source
gets a fresh bucket holding `pps - 1` tokens and is admitted. -/
def rate_limit_consume (m : List (Nat × RateLimitEntry)) (pps now src : Nat) :
    RateDecision × List (Nat × RateLimitEntry) :=
  match alookup m src with
  | some rl =>
    let elapsed0 := wsub64 now rl.last_update
    let elapsed := if elapsed0 > 1000000000 then 1000000000 else elapsed0
    let tokens_to_add := elapsed * pps / 1000000000
    let new_tokens0 := (rl.tokens + tokens_to_add) % 2 ^ 64
    let new_tokens := if new_tokens0 > pps then pps else new_tokens0
    if new_tokens < 1 then (RateDecision.limited, m)
    else (RateDecision.allowed, aupdate m src ⟨new_tokens - 1, now⟩)
  | none => (RateDecision.allowed, aupdate m src ⟨pps - 1, now⟩)

/-- Test driver for the token bucket: run `rate_limit_consume` `n` times
against the same source, threading the map through, and count the Allowed
and Limited decisions. -/
def rate_limit_burst (pps now src : Nat) :
    List (Nat × RateLimitEntry) → Nat → Nat × Nat × List (Nat × RateLimitEntry)
  | m, 0 => (0, 0, m)
  | m, n + 1 =>
    match rate_limit_consume m pps now src with
    | (RateDecision.allowed, m') =>
      let r := rate_limit_burst pps now src m' n
      (r.1 + 1, r.2.1, r.2.2)
    | (RateDecision.limited, m') =>
      let r := rate_limit_burst pps now src m' n
      (r.1, r.2.1 + 1, r.2.2)

/-- Bump the `STAT_ALLOWED` and `STAT_TOTAL_PACKETS` global counters, as the
whitelist fast exit does (lines 229-237). -/
def bump_allowed_total (st : FilterState) : FilterState :=
  { st with global_stats := { st.global_stats with
      allowed := bump st.global_stats.allowed,
      totalPackets := bump st.global_stats.totalPackets } }

/-- Bump the `STAT_BLOCKED` and `STAT_TOTAL_PACKETS` global counters, as the
blacklist fast exit does (lines 252-260). -/
def bump_blocked_total (st : FilterState) : FilterState :=
  { st with global_stats := { st.global_stats with
      blocked := bump st.global_stats.blocked,
      totalPackets := bump st.global_stats.totalPackets } }

/-- Bump only the `STAT_ALLOWED` global counter (the safe-bypass exits of
section 7 and the final pass of section 9). -/
def bump_allowed (st : FilterState) : FilterState :=
  { st with global_stats := { st.global_stats with
      allowed := bump st.global_stats.allowed } }

/-- Mark the per-IP statistics record as blocked if one exists
(`xdp_filter.c` lines 470-471). -/
def set_blocked_flag (m : List (Nat × PacketStats)) (src : Nat) : List (Nat × PacketStats) :=
  match alookup m src with
  | some s => aupdate m src { s with blocked := 1 }
  | none => m

/-- Sections 8 and 9 of `xdp_traffic_filter` (lines 448-488): GeoIP miss
drops only under hard blocking (marking the per-IP blocked flag), GeoIP
miss under soft blocking passes silently, GeoIP hit passes counting
`STAT_ALLOWED`. -/
def xdp_geo_stage (st : FilterState) (src_ip : Nat) : XdpAction × FilterState :=
  match lpmLookup st.geo_allowed src_ip with
  | none =>
    if st.hard_blocking = 1 then
      (XdpAction.drop, { st with
          global_stats := { st.global_stats with blocked := bump st.global_stats.blocked },
          ip_stats := set_blocked_flag st.ip_stats src_ip })
    else (XdpAction.pass, st)
  | some _ => (XdpAction.pass, bump_allowed st)

/-- Sections 7.4, 7.5, 8 and 9 of `xdp_traffic_filter`: the dynamic game
port bypass, the ICMP bypass, the GeoIP check and the final pass. -/
def xdp_port_icmp_geo (st : FilterState) (d : ParsedPacket) (src_ip : Nat) :
    XdpAction × FilterState :=
  -- 7.4 dynamic game port bypass
  if d.dstPort > 0 ∧ alookup st.allowed_ports d.dstPort = some 1 then
    (XdpAction.pass, bump_allowed st)
  -- 7.5 ICMP bypass
  else if d.protocol = 1 then
    (XdpAction.pass, bump_allowed st)
  else
    xdp_geo_stage st src_ip

/-- Section 6 of `xdp_traffic_filter` (lines 312-349), the deferred
statistics update: bump the global packet/byte counters, the
per-destination-port record (when a port is known) and the per-source-IP
record.  Expressed as one per-field state update. -/
def deferred_stats (st : FilterState) (now pkt_size : Nat) (d : ParsedPacket) : FilterState :=
  { st with
    global_stats := { st.global_stats with
      totalPackets := bump st.global_stats.totalPackets,
      totalBytes := (st.global_stats.totalBytes + pkt_size) % 2 ^ 64 },
    port_stats :=
      if d.dstPort > 0 then
        match alookup st.port_stats d.dstPort with
        | some ps => (aupdate st.port_stats d.dstPort ⟨(ps.packets + 1) % 2 ^ 64, (ps.bytes + pkt_size) % 2 ^ 64⟩)
        | none => (aupdate st.port_stats d.dstPort ⟨1, pkt_size⟩)
      else st.port_stats,
    ip_stats :=
      match alookup st.ip_stats d.srcIp with
      | some s => (aupdate st.ip_stats d.srcIp ⟨(s.packets + 1) % 2 ^ 64, (s.bytes + pkt_size) % 2 ^ 64, now, s.blocked⟩)
      | none => (aupdate st.ip_stats d.srcIp ⟨1, pkt_size, now, 0⟩) }

/-- Section 7 of `xdp_traffic_filter` (lines 352-445) followed by the
GeoIP check: the TCP ACK/RST response bypass, the Steam query bypass, the
UDP well-known-source-port bypass, then ports/ICMP/GeoIP. -/
def xdp_safe_bypasses (st4 : FilterState) (buf : List Nat) (d : ParsedPacket) :
    XdpAction × FilterState :=
  let src_ip := d.srcIp
  let ihl := byteAt buf 14 % 16
  -- 7.1 TCP outbound response bypass (ACK or RST flag in byte 13 of the TCP header)
  if d.protocol = 6 then
    if 14 + 20 > buf.length then (XdpAction.pass, st4)
    else
      let ip_len := if ihl * 4 < 20 then 20 else ihl * 4
      let tcp_start := 14 + ip_len
      if tcp_start + 14 ≤ buf.length ∧ Nat.land (byteAt buf (tcp_start + 13)) 0x14 ≠ 0 then
        (XdpAction.pass, bump_allowed st4)
      else
        xdp_port_icmp_geo st4 d src_ip
  else if d.protocol = 17 then
    -- 7.2 Steam query bypass (first four UDP payload bytes all 0xFF)
    let udp_off := 14 + ihl * 4
    if udp_off + 8 ≤ buf.length ∧ udp_off + 8 + 4 ≤ buf.length ∧
        byteAt buf (udp_off + 8) = 255 ∧ byteAt buf (udp_off + 9) = 255 ∧
        byteAt buf (udp_off + 10) = 255 ∧ byteAt buf (udp_off + 11) = 255 then
      (XdpAction.pass, bump_allowed st4)
    -- 7.3 UDP response bypass (DNS, HTTP, HTTPS, NTP source ports)
    else if d.srcPort = 53 ∨ d.srcPort = 80 ∨ d.srcPort = 443 ∨ d.srcPort = 123 then
      (XdpAction.pass, bump_allowed st4)
    else
      xdp_port_icmp_geo st4 d src_ip
  else
    xdp_port_icmp_geo st4 d src_ip

/-- Sections 5-9 of `xdp_traffic_filter` (lines 267-488): rate limiting,
deferred statistics, the safe bypasses, the GeoIP check, and the final
pass.  Reached after parsing, the fast-pass bypasses, and the
whitelist/blacklist checks have all declined to terminate. -/
def xdp_after_blacklist (st : FilterState) (now : Nat) (buf : List Nat) (d : ParsedPacket) :
    XdpAction × FilterState :=
  -- 5. RATE LIMIT CHECK
  if st.rate_limit_pps > 0 then
    if (rate_limit_consume st.rate_limits st.rate_limit_pps now d.srcIp).1 =
        RateDecision.limited then
      (XdpAction.drop, { st with global_stats := { st.global_stats with
          rateLimited := bump st.global_stats.rateLimited,
          blocked := bump st.global_stats.blocked } })
    else
      xdp_safe_bypasses
        (deferred_stats
          { st with
            rate_limits := (rate_limit_consume st.rate_limits st.rate_limit_pps now d.srcIp).2 }
          now buf.length d)
        buf d
  else
    xdp_safe_bypasses (deferred_stats st now buf.length d) buf d

/-- `xdp_traffic_filter` of `xdp_filter.c` (lines 182-489): parse, fast-pass
bypasses (private source, management ports 22/51820/8080, fragments),
whitelist fast exit, blacklist fast drop, then sections 5-9. -/
def xdp_traffic_filter (st : FilterState) (now : Nat) (buf : List Nat) :
    XdpAction × FilterState :=
  match parse_ip_packet buf with
  | none => (XdpAction.pass, st)
  | some d =>
    if is_private_ip d.srcIp then (XdpAction.pass, st)
    else if d.dstPort = 22 ∨ d.dstPort = 51820 ∨ d.dstPort = 8080 then (XdpAction.pass, st)
    else if d.isFragment then (XdpAction.pass, st)
    else if (lpmLookup st.white_list d.srcIp).isSome then
      (XdpAction.pass, bump_allowed_total st)
    else if lpmLookup st.blocked_ips d.srcIp = some 1 then
      (XdpAction.drop, bump_blocked_total st)
    else
      xdp_after_blacklist st now buf d

/-- The BPF-map state of `tc_egress.c`: the pinned `active_connections`
map (destination IP → last-seen timestamp, shared with XDP by name) and
the four slots of the `tc_stats` array map. -/
structure TcState where
  active_connections : List (Nat × Nat)
  tracked_connections : Nat
  tcp_tracked : Nat
  udp_tracked : Nat
  total_packets : Nat
deriving DecidableEq

/-- Destination address (host byte order) of an egress frame: `ip->daddr`
at byte offset 30 of the buffer. -/
def tc_dest_ip (buf : List Nat) : Nat := be32 buf 30

/-- `tc_egress_track` of `tc_egress.c` (lines 41-113): parse Ethernet and
IPv4 headers, skip private/loopback destinations, count the packet, and
for TCP or UDP record the destination in `active_connections` with the
current timestamp.  Every path returns `TC_ACT_OK` (0). -/
def tc_egress_track (st : TcState) (now : Nat) (buf : List Nat) : Nat × TcState :=
  if buf.length < 14 then (0, st)
  else if ¬(byteAt buf 12 = 8 ∧ byteAt buf 13 = 0) then (0, st)
  else if buf.length < 34 then (0, st)
  else if is_private_ip (tc_dest_ip buf) then (0, st)
  else if byteAt buf 23 = 6 then
    (0, { st with
        total_packets := bump st.total_packets,
        active_connections := aupdate st.active_connections (tc_dest_ip buf) now,
        tracked_connections := bump st.tracked_connections,
        tcp_tracked := bump st.tcp_tracked })
  else if byteAt buf 23 = 17 then
    (0, { st with
        total_packets := bump st.total_packets,
        active_connections := aupdate st.active_connections (tc_dest_ip buf) now,
        tracked_connections := bump st.tracked_connections,
        udp_tracked := bump st.udp_tracked })
  else (0, { st with total_packets := bump st.total_packets })

/-- Modelled from the spec: the ingress-side freshness test of the
connection tracker (spec §4.3, `isFresh(sourceAddress, now)`), whose XDP
consumer is not under `src/` — only the pinned `active_connections` map
declaration and its sharing comment are (`tc_egress.c` lines 17-26).  An
entry is fresh while `now - lastSeenTimestamp < TTL` with TTL = 60 s. -/
def conn_is_fresh (conns : List (Nat × Nat)) (now src : Nat) : Bool :=
  match alookup conns src with
  | some t => wsub64 now t < 60 * 1000000000
  | none => false

/-- Modelled from the spec: the canonical decision pipeline of spec §4.5,
i.e. the source's `xdp_traffic_filter` with the two stages that are absent
from the XDP program under `src/` inserted at the spec's positions —
stage 2 (maintenance mode enabled → ALLOW, the toggle living in the
otherwise unused part of the 4-slot `config` array) and stage 8 (source is
a fresh egress destination → ALLOW, record stats, skip rate limit and
GeoIP). -/
def xdp_traffic_filter_spec (st : FilterState) (maintenance_mode : Nat)
    (conns : List (Nat × Nat)) (now : Nat) (buf : List Nat) : XdpAction × FilterState :=
  match parse_ip_packet buf with
  | none => (XdpAction.pass, st)
  | some d =>
    if maintenance_mode = 1 then (XdpAction.pass, st)
    else if is_private_ip d.srcIp then (XdpAction.pass, st)
    else if d.dstPort = 22 ∨ d.dstPort = 51820 ∨ d.dstPort = 8080 then (XdpAction.pass, st)
    else if d.isFragment then (XdpAction.pass, st)
    else if (lpmLookup st.white_list d.srcIp).isSome then
      (XdpAction.pass, bump_allowed_total st)
    else if lpmLookup st.blocked_ips d.srcIp = some 1 then
      (XdpAction.drop, bump_blocked_total st)
    else if conn_is_fresh conns now d.srcIp then
      (XdpAction.pass, bump_allowed_total st)
    else
      xdp_after_blacklist st now buf d

/-! Concrete fixtures used to instantiate theorems with hypotheses. -/

/-- An ICMP frame from 1.2.3.4 to 8.8.8.8 whose IP header-length field is 4
(below the legal minimum of 5). -/
def bufIcmpIhl4 : List Nat :=
  [0, 0, 0, 0, 0, 0, 0, 0, 0, 0, 0, 0, 8, 0,
   0x44, 0, 0, 0, 0, 0, 0, 0, 0, 1, 0, 0, 1, 2, 3, 4, 8, 8, 8, 8]

/-- A 34-byte TCP frame from 1.2.3.4 to 8.8.8.8 (ihl 5): too short for the
TCP header, so ports parse as 0 and the ACK/RST bypass cannot fire. -/
def bufTcpNoAck : List Nat :=
  [0, 0, 0, 0, 0, 0, 0, 0, 0, 0, 0, 0, 8, 0,
   0x45, 0, 0, 0, 0, 0, 0, 0, 0, 6, 0, 0, 1, 2, 3, 4, 8, 8, 8, 8]

/-- An ICMP frame from 1.2.3.4 to 8.8.8.8 with a well-formed header. -/
def bufIcmpPublic : List Nat :=
  [0, 0, 0, 0, 0, 0, 0, 0, 0, 0, 0, 0, 8, 0,
   0x45, 0, 0, 0, 0, 0, 0, 0, 0, 1, 0, 0, 1, 2, 3, 4, 8, 8, 8, 8]

/-- An ICMP frame whose source 10.0.0.1 is private. -/
def bufPrivateSrc : List Nat :=
  [0, 0, 0, 0, 0, 0, 0, 0, 0, 0, 0, 0, 8, 0,
   0x45, 0, 0, 0, 0, 0, 0, 0, 0, 1, 0, 0, 10, 0, 0, 1, 8, 8, 8, 8]

/-- A UDP fragment (more-fragments flag set) from 1.2.3.4. -/
def bufFragment : List Nat :=
  [0, 0, 0, 0, 0, 0, 0, 0, 0, 0, 0, 0, 8, 0,
   0x45, 0, 0, 0, 0, 0, 0x20, 0, 0, 17, 0, 0, 1, 2, 3, 4, 8, 8, 8, 8]

/-- A filter state whose whitelist and blacklist both hold 1.2.3.4/32. -/
def stWhiteAndBlack : FilterState :=
  ⟨[⟨32, 16909060, 1⟩], [⟨32, 16909060, 1⟩], [], [], 1, 1, [], [], [], ⟨0, 0, 0, 0, 0⟩⟩

/-- A filter state that blacklists 1.2.3.4/32 and 10.0.0.1/32. -/
def stBlacklist : FilterState :=
  ⟨[], [⟨32, 16909060, 1⟩, ⟨32, 0x0A000001, 1⟩], [], [], 0, 0, [], [], [], ⟨0, 0, 0, 0, 0⟩⟩

/-- A filter state with every table empty and every toggle off. -/
def stEmpty : FilterState := ⟨[], [], [], [], 0, 0, [], [], [], ⟨0, 0, 0, 0, 0⟩⟩

/-! Helper lemmas. -/

theorem alookup_aupdate {α : Type} (m : List (Nat × α)) (k : Nat) (v : α) :
    alookup (aupdate m k v) k = some v := by
  induction m with
  | nil => simp [aupdate, alookup]
  | cons hd tl ih =>
    obtain ⟨k', v'⟩ := hd
    by_cases hk : k' = k
    · simp [aupdate, hk, alookup]
    · simp [aupdate, hk, alookup, ih]

theorem wsub64_self (a : Nat) : wsub64 a a = 0 := by
  simp [wsub64]

theorem wsub64_add (a d : Nat) (hd : d < 2 ^ 64) : wsub64 (a + d) a = d := by
  unfold wsub64
  have h1 : 2 ^ 64 + (a + d) - a = 2 ^ 64 + d := by omega
  rw [h1, Nat.add_mod_left]
  exact Nat.mod_eq_of_lt hd

theorem xdp_geo_stage_drop (st : FilterState) (src : Nat)
    (h : (xdp_geo_stage st src).1 = XdpAction.drop) :
    lpmLookup st.geo_allowed src = none ∧ st.hard_blocking = 1 := by
  unfold xdp_geo_stage at h
  rcases hg : lpmLookup st.geo_allowed src with _ | v <;> simp only [hg] at h
  · split_ifs at h with hh
    exact ⟨by simp [hg], hh⟩
  · simp at h

theorem xdp_port_icmp_geo_drop (st : FilterState) (d : ParsedPacket) (src : Nat)
    (h : (xdp_port_icmp_geo st d src).1 = XdpAction.drop) :
    lpmLookup st.geo_allowed src = none ∧ st.hard_blocking = 1 := by
  unfold xdp_port_icmp_geo at h
  split_ifs at h
  all_goals first
    | exact xdp_geo_stage_drop st src h
    | simp at h

theorem xdp_safe_bypasses_drop (st : FilterState) (buf : List Nat) (d : ParsedPacket)
    (h : (xdp_safe_bypasses st buf d).1 = XdpAction.drop) :
    lpmLookup st.geo_allowed d.srcIp = none ∧ st.hard_blocking = 1 := by
  simp only [xdp_safe_bypasses] at h
  split_ifs at h
  all_goals first
    | exact xdp_geo_stage_drop st d.srcIp h
    | exact xdp_port_icmp_geo_drop st d d.srcIp h
    | simp at h

theorem xdp_after_blacklist_drop (st : FilterState) (now : Nat) (buf : List Nat)
    (d : ParsedPacket) (h : (xdp_after_blacklist st now buf d).1 = XdpAction.drop) :
    (st.rate_limit_pps > 0 ∧
      (rate_limit_consume st.rate_limits st.rate_limit_pps now d.srcIp).1 =
        RateDecision.limited) ∨
    (lpmLookup st.geo_allowed d.srcIp = none ∧ st.hard_blocking = 1) := by
  unfold xdp_after_blacklist at h
  split_ifs at h with hpps hlim
  · exact Or.inl ⟨hpps, hlim⟩
  · have h2 := xdp_safe_bypasses_drop _ buf d h
    exact Or.inr h2
  · have h2 := xdp_safe_bypasses_drop _ buf d h
    exact Or.inr h2

theorem xdp_traffic_filter_none (st : FilterState) (now : Nat) (buf : List Nat)
    (hp : parse_ip_packet buf = none) :
    xdp_traffic_filter st now buf = (XdpAction.pass, st) := by
  unfold xdp_traffic_filter
  rw [hp]

theorem xdp_traffic_filter_some (st : FilterState) (now : Nat) (buf : List Nat)
    (d : ParsedPacket) (hp : parse_ip_packet buf = some d) :
    xdp_traffic_filter st now buf =
      (if is_private_ip d.srcIp then (XdpAction.pass, st)
       else if d.dstPort = 22 ∨ d.dstPort = 51820 ∨ d.dstPort = 8080 then (XdpAction.pass, st)
       else if d.isFragment then (XdpAction.pass, st)
       else if (lpmLookup st.white_list d.srcIp).isSome then
         (XdpAction.pass, bump_allowed_total st)
       else if lpmLookup st.blocked_ips d.srcIp = some 1 then
         (XdpAction.drop, bump_blocked_total st)
       else xdp_after_blacklist st now buf d) := by
  unfold xdp_traffic_filter
  rw [hp]

theorem xdp_traffic_filter_spec_some (st : FilterState) (maint : Nat)
    (conns : List (Nat × Nat)) (now : Nat) (buf : List Nat) (d : ParsedPacket)
    (hp : parse_ip_packet buf = some d) :
    xdp_traffic_filter_spec st maint conns now buf =
      (if maint = 1 then (XdpAction.pass, st)
       else if is_private_ip d.srcIp then (XdpAction.pass, st)
       else if d.dstPort = 22 ∨ d.dstPort = 51820 ∨ d.dstPort = 8080 then (XdpAction.pass, st)
       else if d.isFragment then (XdpAction.pass, st)
       else if (lpmLookup st.white_list d.srcIp).isSome then
         (XdpAction.pass, bump_allowed_total st)
       else if lpmLookup st.blocked_ips d.srcIp = some 1 then
         (XdpAction.drop, bump_blocked_total st)
       else if conn_is_fresh conns now d.srcIp then
         (XdpAction.pass, bump_allowed_total st)
       else xdp_after_blacklist st now buf d) := by
  unfold xdp_traffic_filter_spec
  rw [hp]

theorem consume_same_instant (pps now src k : Nat) (hk : k ≤ pps) (h64 : pps < 2 ^ 64) :
    rate_limit_consume [(src, ⟨k, now⟩)] pps now src =
      if k < 1 then (RateDecision.limited, [(src, ⟨k, now⟩)])
      else (RateDecision.allowed, [(src, ⟨k - 1, now⟩)]) := by
  unfold rate_limit_consume
  have hl : alookup [(src, (⟨k, now⟩ : RateLimitEntry))] src = some ⟨k, now⟩ := by
    simp [alookup]
  rw [hl]
  simp only [wsub64_self]
  rw [if_neg (by omega : ¬((0 : Nat) > 1000000000))]
  rw [(by simp : 0 * pps / 1000000000 = 0)]
  rw [Nat.add_zero]
  rw [Nat.mod_eq_of_lt (by omega : k < 2 ^ 64)]
  rw [if_neg (by omega : ¬(k > pps))]
  by_cases h5 : k < 1
  · rw [if_pos h5, if_pos h5]
  · rw [if_neg h5, if_neg h5]
    simp [aupdate]

theorem rate_limit_burst_step_allowed (pps now src n : Nat)
    (m m' : List (Nat × RateLimitEntry))
    (h : rate_limit_consume m pps now src = (RateDecision.allowed, m')) :
    rate_limit_burst pps now src m (n + 1) =
      ((rate_limit_burst pps now src m' n).1 + 1, (rate_limit_burst pps now src m' n).2.1,
        (rate_limit_burst pps now src m' n).2.2) := by
  simp [rate_limit_burst, h]

theorem rate_limit_burst_step_limited (pps now src n : Nat)
    (m m' : List (Nat × RateLimitEntry))
    (h : rate_limit_consume m pps now src = (RateDecision.limited, m')) :
    rate_limit_burst pps now src m (n + 1) =
      ((rate_limit_burst pps now src m' n).1, (rate_limit_burst pps now src m' n).2.1 + 1,
        (rate_limit_burst pps now src m' n).2.2) := by
  simp [rate_limit_burst, h]

theorem rate_limit_burst_drain (pps now src : Nat) (h64 : pps < 2 ^ 64) :
    ∀ n k, k ≤ pps →
      (rate_limit_burst pps now src [(src, ⟨k, now⟩)] n).1 = min n k ∧
      (rate_limit_burst pps now src [(src, ⟨k, now⟩)] n).2.1 = n - min n k := by
  intro n
  induction n with
  | zero => intro k hk; simp [rate_limit_burst]
  | succ n ih =>
    intro k hk
    by_cases hk0 : k < 1
    · have hk0' : k = 0 := by omega
      subst hk0'
      have hc := consume_same_instant pps now src 0 (Nat.zero_le _) h64
      rw [if_pos (by omega : (0 : Nat) < 1)] at hc
      rw [rate_limit_burst_step_limited pps now src n _ _ hc]
      obtain ⟨ih1, ih2⟩ := ih 0 (Nat.zero_le _)
      constructor
      · simpa using ih1
      · simp only []
        omega
    · have hc := consume_same_instant pps now src k hk h64
      rw [if_neg hk0] at hc
      rw [rate_limit_burst_step_allowed pps now src n _ _ hc]
      obtain ⟨ih1, ih2⟩ := ih (k - 1) (by omega)
      constructor
      · simp only [ih1]
        omega
      · simp only [ih2]
        omega

/-! Claim theorems. -/

/-- C4 (counterexample): the parser succeeds on a buffer whose IP
header-length field is 4 (below 5), and succeeds (with ports 0) on a TCP
buffer whose computed L4 offset exceeds the buffer bound — refuting both
failure clauses of the claim. -/
theorem parse_failure_cx :
    (parse_ip_packet bufIcmpIhl4 = some ⟨16909060, 1, 0, 0, false⟩ ∧
      byteAt bufIcmpIhl4 14 % 16 = 4) ∧
    (parse_ip_packet bufTcpNoAck = some ⟨16909060, 6, 0, 0, false⟩ ∧
      bufTcpNoAck.length < 14 + (byteAt bufTcpNoAck 14 % 16) * 4 + 20) := by
  decide

/-- C4 (amended): `parse_ip_packet` fails exactly when the buffer is
shorter than an Ethernet header, the EtherType is not IPv4, or the buffer
is shorter than Ethernet plus a minimal IPv4 header; a header-length field
below 5 or an out-of-bounds L4 offset does not cause failure (ports
default to 0). -/
theorem parse_failure_iff (buf : List Nat) :
    parse_ip_packet buf = none ↔
      buf.length < 14 ∨ ¬(byteAt buf 12 = 8 ∧ byteAt buf 13 = 0) ∨ buf.length < 34 := by
  unfold parse_ip_packet
  split_ifs with h1 h2 h3 <;> simp_all
  split_ifs <;> simp_all <;> omega

/-- C6: every successfully parsed packet with a private or loopback source
address is passed, whatever the contents of every table and toggle. -/
theorem private_source_pass (st : FilterState) (now : Nat) (buf : List Nat) (d : ParsedPacket)
    (hp : parse_ip_packet buf = some d) (hpriv : is_private_ip d.srcIp = true) :
    (xdp_traffic_filter st now buf).1 = XdpAction.pass := by
  unfold xdp_traffic_filter
  rw [hp]
  simp [hpriv]

/-- C6 (witness): a packet from 10.0.0.1 is passed even while 10.0.0.1 is
blacklisted. -/
theorem private_source_pass_witness :
    (xdp_traffic_filter stBlacklist 0 bufPrivateSrc).1 = XdpAction.pass :=
  private_source_pass stBlacklist 0 bufPrivateSrc ⟨0x0A000001, 1, 0, 0, false⟩
    (by decide) (by decide)

/-- C7: every successfully parsed packet whose source matches the
whitelist is passed — the blacklist is never consulted — and the
rate-limit table is left exactly unchanged. -/
theorem whitelist_pass_frame (st : FilterState) (now : Nat) (buf : List Nat) (d : ParsedPacket)
    (hp : parse_ip_packet buf = some d)
    (hw : (lpmLookup st.white_list d.srcIp).isSome = true) :
    (xdp_traffic_filter st now buf).1 = XdpAction.pass ∧
    (xdp_traffic_filter st now buf).2.rate_limits = st.rate_limits := by
  rw [xdp_traffic_filter_some st now buf d hp]
  split_ifs <;> simp_all [bump_allowed_total]

/-- C7 (witness): a packet from 1.2.3.4 is passed with untouched rate
state although 1.2.3.4 is simultaneously whitelisted and blacklisted. -/
theorem whitelist_pass_frame_witness :
    (xdp_traffic_filter stWhiteAndBlack 0 bufTcpNoAck).1 = XdpAction.pass ∧
    (xdp_traffic_filter stWhiteAndBlack 0 bufTcpNoAck).2.rate_limits =
      stWhiteAndBlack.rate_limits :=
  whitelist_pass_frame stWhiteAndBlack 0 bufTcpNoAck ⟨16909060, 6, 0, 0, false⟩
    (by decide) (by decide)

/-- C10: a packet resolved by the parse-failure, private-source,
management-port or fragment bypass leaves the whole shared state
unchanged: no counter, statistics record or rate bucket is touched. -/
theorem early_bypass_no_side_effects (st : FilterState) (now : Nat) (buf : List Nat)
    (h : parse_ip_packet buf = none ∨ ∃ d, parse_ip_packet buf = some d ∧
      (is_private_ip d.srcIp = true ∨ d.dstPort = 22 ∨ d.dstPort = 51820 ∨
        d.dstPort = 8080 ∨ d.isFragment = true)) :
    xdp_traffic_filter st now buf = (XdpAction.pass, st) := by
  rcases h with h | ⟨d, hd, hcase⟩
  · exact xdp_traffic_filter_none st now buf h
  · rw [xdp_traffic_filter_some st now buf d hd]
    rcases hcase with h1 | h1 | h1 | h1 | h1 <;> split_ifs <;> simp_all

/-- C10 (witness): a fragment from 1.2.3.4 leaves a populated state fully
unchanged. -/
theorem early_bypass_no_side_effects_witness :
    xdp_traffic_filter stWhiteAndBlack 3 bufFragment = (XdpAction.pass, stWhiteAndBlack) :=
  early_bypass_no_side_effects stWhiteAndBlack 3 bufFragment
    (Or.inr ⟨⟨16909060, 17, 0, 0, true⟩, by decide, by decide⟩)

/-- C2: with the spec-modelled maintenance-mode stage in place, every
successfully parsed packet is passed while the toggle is enabled, before
any other check runs and without touching any state. -/
theorem maintenance_mode_allows_all (st : FilterState) (conns : List (Nat × Nat)) (now : Nat)
    (buf : List Nat) (d : ParsedPacket) (hp : parse_ip_packet buf = some d) :
    xdp_traffic_filter_spec st 1 conns now buf = (XdpAction.pass, st) := by
  unfold xdp_traffic_filter_spec
  rw [hp]
  simp

/-- C2 (witness): maintenance mode passes a packet whose source is
blacklisted, leaving the state unchanged. -/
theorem maintenance_mode_allows_all_witness :
    xdp_traffic_filter_spec stBlacklist 1 [] 0 bufTcpNoAck = (XdpAction.pass, stBlacklist) :=
  maintenance_mode_allows_all stBlacklist [] 0 bufTcpNoAck ⟨16909060, 6, 0, 0, false⟩
    (by decide)

/-- C5: the pipeline drops a packet only on an explicit policy match —
blacklist hit, exhausted rate-limit tokens, or GeoIP miss under hard
blocking — and any parse failure is passed. -/
theorem drop_only_policy (st : FilterState) (now : Nat) (buf : List Nat) :
    ((xdp_traffic_filter st now buf).1 = XdpAction.drop →
      ∃ d, parse_ip_packet buf = some d ∧
        (lpmLookup st.blocked_ips d.srcIp = some 1 ∨
         (st.rate_limit_pps > 0 ∧
           (rate_limit_consume st.rate_limits st.rate_limit_pps now d.srcIp).1 =
             RateDecision.limited) ∨
         (lpmLookup st.geo_allowed d.srcIp = none ∧ st.hard_blocking = 1))) ∧
    (parse_ip_packet buf = none → (xdp_traffic_filter st now buf).1 = XdpAction.pass) := by
  constructor
  · intro h
    rcases hp : parse_ip_packet buf with _ | d
    · rw [xdp_traffic_filter_none st now buf hp] at h
      simp at h
    · refine ⟨d, rfl, ?_⟩
      rw [xdp_traffic_filter_some st now buf d hp] at h
      split_ifs at h with h1 h2 h3 h4 h5
      · exact Or.inl h5
      · exact Or.inr (xdp_after_blacklist_drop st now buf d h)
  · intro hp
    rw [xdp_traffic_filter_none st now buf hp]

/-- C5 (witness): a packet from the blacklisted source 1.2.3.4 is dropped,
and the blacklist condition is the reason. -/
theorem drop_only_policy_witness :
    ∃ d, parse_ip_packet bufTcpNoAck = some d ∧
      (lpmLookup stBlacklist.blocked_ips d.srcIp = some 1 ∨
       (stBlacklist.rate_limit_pps > 0 ∧
         (rate_limit_consume stBlacklist.rate_limits stBlacklist.rate_limit_pps 0
             d.srcIp).1 = RateDecision.limited) ∨
       (lpmLookup stBlacklist.geo_allowed d.srcIp = none ∧ stBlacklist.hard_blocking = 1)) :=
  (drop_only_policy stBlacklist 0 bufTcpNoAck).1 (by decide)

/-- C1: with the spec-modelled connection-tracker stage in place, a packet
that reaches that stage from a source recorded in the egress table less
than 60 seconds ago is passed with only the allowed/total counters bumped
— the rate-limit table is untouched and the GeoIP tables play no part in
the verdict — while a record exactly 61 seconds old leaves the pipeline
identical to the source's ordinary (bypass-free) path. -/
theorem conn_tracker_fresh_bypass (st : FilterState) (maint : Nat) (conns : List (Nat × Nat))
    (now t : Nat) (buf : List Nat) (d : ParsedPacket)
    (hp : parse_ip_packet buf = some d)
    (hm : maint ≠ 1)
    (hpriv : is_private_ip d.srcIp = false)
    (hport : ¬(d.dstPort = 22 ∨ d.dstPort = 51820 ∨ d.dstPort = 8080))
    (hfrag : d.isFragment = false)
    (hw : (lpmLookup st.white_list d.srcIp).isSome = false)
    (hb : ¬lpmLookup st.blocked_ips d.srcIp = some 1)
    (hc : alookup conns d.srcIp = some t) :
    (wsub64 now t < 60 * 1000000000 →
      xdp_traffic_filter_spec st maint conns now buf = (XdpAction.pass, bump_allowed_total st) ∧
      (xdp_traffic_filter_spec st maint conns now buf).2.rate_limits = st.rate_limits) ∧
    (wsub64 now t = 61 * 1000000000 →
      xdp_traffic_filter_spec st maint conns now buf = xdp_traffic_filter st now buf) := by
  rw [xdp_traffic_filter_spec_some st maint conns now buf d hp]
  rw [xdp_traffic_filter_some st now buf d hp]
  constructor
  · intro hfresh
    have hcf : conn_is_fresh conns now d.srcIp = true := by
      simp [conn_is_fresh, hc, hfresh]
    simp [hm, hpriv, hport, hfrag, hw, hb, hcf, bump_allowed_total]
  · intro hstale
    have hcf : conn_is_fresh conns now d.srcIp = false := by
      simp [conn_is_fresh, hc, hstale]
    simp [hm, hpriv, hport, hfrag, hw, hb, hcf]

/-- C1 (witness): a packet from 1.2.3.4 thirty seconds after the egress
record is passed with the rate-limit table untouched. -/
theorem conn_tracker_fresh_bypass_witness :
    (xdp_traffic_filter_spec stEmpty 0 [(16909060, 100)] (100 + 30 * 1000000000)
        bufTcpNoAck = (XdpAction.pass, bump_allowed_total stEmpty)) ∧
    (xdp_traffic_filter_spec stEmpty 0 [(16909060, 100)] (100 + 30 * 1000000000)
        bufTcpNoAck).2.rate_limits = stEmpty.rate_limits :=
  (conn_tracker_fresh_bypass stEmpty 0 [(16909060, 100)] (100 + 30 * 1000000000) 100
      bufTcpNoAck ⟨16909060, 6, 0, 0, false⟩ (by decide) (by decide) (by decide) (by decide)
      (by decide) (by decide) (by decide) (by decide)).1 (by decide)

/-- C9 (counterexample): an outbound ICMP frame to the public destination
8.8.8.8 leaves the connection table empty — the egress path records only
TCP and UDP destinations, not every outbound packet. -/
theorem egress_tracking_cx :
    (tc_egress_track ⟨[], 0, 0, 0, 0⟩ 99 bufIcmpPublic).2.active_connections = [] ∧
    is_private_ip (tc_dest_ip bufIcmpPublic) = false ∧
    34 ≤ bufIcmpPublic.length ∧ byteAt bufIcmpPublic 12 = 8 ∧ byteAt bufIcmpPublic 13 = 0 := by
  decide

/-- C9 (amended): the egress path always returns `TC_ACT_OK`; for every
parsed outbound IPv4 frame it records the destination with the current
timestamp exactly when the destination is non-private and the protocol is
TCP or UDP, and it never touches the table for a private or loopback
destination. -/
theorem egress_tracking (st : TcState) (now : Nat) (buf : List Nat)
    (hlen : 34 ≤ buf.length) (heth : byteAt buf 12 = 8 ∧ byteAt buf 13 = 0) :
    (∀ b : List Nat, (tc_egress_track st now b).1 = 0) ∧
    (is_private_ip (tc_dest_ip buf) = false → (byteAt buf 23 = 6 ∨ byteAt buf 23 = 17) →
      alookup (tc_egress_track st now buf).2.active_connections (tc_dest_ip buf) = some now) ∧
    (is_private_ip (tc_dest_ip buf) = true →
      (tc_egress_track st now buf).2.active_connections = st.active_connections) := by
  refine ⟨fun b => ?_, fun hpub hproto => ?_, fun hpriv => ?_⟩
  · unfold tc_egress_track
    split_ifs <;> rfl
  · unfold tc_egress_track
    split_ifs <;> first
      | omega
      | simp_all [alookup_aupdate]
  · unfold tc_egress_track
    split_ifs <;> simp_all

/-- C9 (witness): a TCP frame to 8.8.8.8 deposits a fresh timestamp for
8.8.8.8 in the connection table. -/
theorem egress_tracking_witness :
    alookup (tc_egress_track ⟨[], 0, 0, 0, 0⟩ 99 bufTcpNoAck).2.active_connections
      (tc_dest_ip bufTcpNoAck) = some 99 :=
  (egress_tracking ⟨[], 0, 0, 0, 0⟩ 99 bufTcpNoAck (by decide) (by decide)).2.1
    (by decide) (Or.inl (by decide))

/-- C3 (counterexample): with `capacityPPS = 3`, the first packet creates
the bucket with 2 tokens remaining — only one token consumed, not
`capacityPPS - 1` — and an immediately following packet from the same
source at the same instant is Allowed, not Limited. -/
theorem rate_bucket_first_sight_cx :
    rate_limit_consume [] 3 1000 7 = (RateDecision.allowed, [(7, ⟨2, 1000⟩)]) ∧
    (rate_limit_consume [(7, ⟨2, 1000⟩)] 3 1000 7).1 = RateDecision.allowed := by
  decide

/-- C3 (amended): a first-seen source (with `capacityPPS > 0`) is admitted
and its bucket is created with one token consumed (`capacityPPS - 1`
remaining); an immediately following packet at the same instant is Limited
exactly when `capacityPPS = 1`. -/
theorem rate_bucket_first_sight (m : List (Nat × RateLimitEntry)) (pps now src : Nat)
    (h1 : 0 < pps) (h2 : pps < 2 ^ 32) (h0 : alookup m src = none) :
    rate_limit_consume m pps now src =
      (RateDecision.allowed, aupdate m src ⟨pps - 1, now⟩) ∧
    ((rate_limit_consume (aupdate m src ⟨pps - 1, now⟩) pps now src).1 =
        RateDecision.limited ↔ pps = 1) := by
  have hfirst : rate_limit_consume m pps now src =
      (RateDecision.allowed, aupdate m src ⟨pps - 1, now⟩) := by
    unfold rate_limit_consume
    rw [h0]
  refine ⟨hfirst, ?_⟩
  have hl := alookup_aupdate m src (⟨pps - 1, now⟩ : RateLimitEntry)
  unfold rate_limit_consume
  rw [hl]
  have hps : pps - 1 < 2 ^ 64 := by
    have : (2 : Nat) ^ 32 < 2 ^ 64 := by norm_num
    omega
  simp only [wsub64_self]
  have e1 : ¬(0 > 1000000000) := by omega
  rw [if_neg e1]
  have e2 : 0 * pps / 1000000000 = 0 := by simp
  rw [e2]
  have e3 : (pps - 1 + 0) % 2 ^ 64 = pps - 1 := by
    rw [Nat.add_zero]
    exact Nat.mod_eq_of_lt hps
  rw [e3]
  have e4 : ¬(pps - 1 > pps) := by omega
  rw [if_neg e4]
  by_cases h5 : pps - 1 < 1
  · rw [if_pos h5]
    simp
    omega
  · rw [if_neg h5]
    simp
    omega

/-- C3 (witness): with `capacityPPS = 1` the first packet is admitted with
an empty bucket left behind, and the immediate second packet is Limited. -/
theorem rate_bucket_first_sight_witness :
    rate_limit_consume [] 1 5 9 = (RateDecision.allowed, aupdate [] 9 ⟨0, 5⟩) ∧
    ((rate_limit_consume (aupdate [] 9 ⟨0, 5⟩) 1 5 9).1 = RateDecision.limited ↔ 1 = 1) :=
  rate_bucket_first_sight [] 1 5 9 (by decide) (by decide) (by decide)

/-- C8 (counterexample): with `capacityPPS = 3`, a packet arriving exactly
`10^9 / 3` nanoseconds (one third of a second, rounded as the integer
refill computes it) after an empty bucket is Limited, not admitted; and
with `capacityPPS = 2` a burst of three packets at 0 ns, 500000000 ns and
999999999 ns — `capacityPPS + 1` packets in under one second — is entirely
Allowed, with no Limited result. -/
theorem token_bucket_refill_cx :
    (rate_limit_consume [(7, ⟨0, 0⟩)] 3 333333333 7).1 = RateDecision.limited ∧
    rate_limit_consume [] 2 0 7 = (RateDecision.allowed, [(7, ⟨1, 0⟩)]) ∧
    rate_limit_consume [(7, ⟨1, 0⟩)] 2 500000000 7 =
      (RateDecision.allowed, [(7, ⟨1, 500000000⟩)]) ∧
    (rate_limit_consume [(7, ⟨1, 500000000⟩)] 2 999999999 7).1 = RateDecision.allowed := by
  decide

/-- C8 (amended): for `0 < capacityPPS ≤ 10^9`, a packet arriving
`⌈10^9 / capacityPPS⌉` nanoseconds (the shortest whole-nanosecond wait of
at least `1/capacityPPS` seconds) after an empty bucket is admitted and an
immediate second packet is Limited; a burst of `capacityPPS + 1` packets
all at one instant from a first-seen source yields exactly `capacityPPS`
Allowed and exactly one Limited; and a Limited call never consumes a token
(the map is returned unchanged). -/
theorem token_bucket_refill (pps t0 now src : Nat) (h1 : 0 < pps) (h2 : pps ≤ 10 ^ 9)
    (h3 : t0 + 10 ^ 9 < 2 ^ 64) :
    ((rate_limit_consume [(src, ⟨0, t0⟩)] pps (t0 + (10 ^ 9 + pps - 1) / pps) src).1 =
        RateDecision.allowed ∧
      (rate_limit_consume
          (rate_limit_consume [(src, ⟨0, t0⟩)] pps (t0 + (10 ^ 9 + pps - 1) / pps) src).2
          pps (t0 + (10 ^ 9 + pps - 1) / pps) src).1 = RateDecision.limited) ∧
    ((rate_limit_burst pps now src [] (pps + 1)).1 = pps ∧
      (rate_limit_burst pps now src [] (pps + 1)).2.1 = 1) ∧
    (∀ m, (rate_limit_consume m pps now src).1 = RateDecision.limited →
      (rate_limit_consume m pps now src).2 = m) := by
  have h64 : pps < 2 ^ 64 := by omega
  have hdm : ((10 ^ 9 + pps - 1) / pps) * pps + (10 ^ 9 + pps - 1) % pps =
      10 ^ 9 + pps - 1 := by
    rw [Nat.mul_comm]
    exact Nat.div_add_mod _ _
  have hmod : (10 ^ 9 + pps - 1) % pps < pps := Nat.mod_lt _ h1
  have hq9 : (10 ^ 9 + pps - 1) / pps ≤ 10 ^ 9 := by
    rw [Nat.div_le_iff_le_mul_add_pred h1]
    have hle : 10 ^ 9 ≤ pps * 10 ^ 9 := Nat.le_mul_of_pos_left _ h1
    omega
  have hx1 : 10 ^ 9 ≤ ((10 ^ 9 + pps - 1) / pps) * pps := by
    generalize hqp : ((10 ^ 9 + pps - 1) / pps) * pps = x at hdm
    generalize hr : (10 ^ 9 + pps - 1) % pps = r at hdm hmod
    omega
  have hx2 : ((10 ^ 9 + pps - 1) / pps) * pps < 2 * 10 ^ 9 := by
    generalize hqp : ((10 ^ 9 + pps - 1) / pps) * pps = x at hdm
    generalize hr : (10 ^ 9 + pps - 1) % pps = r at hdm hmod
    omega
  have hstep : rate_limit_consume [(src, ⟨0, t0⟩)] pps (t0 + (10 ^ 9 + pps - 1) / pps) src =
      (RateDecision.allowed, [(src, ⟨0, t0 + (10 ^ 9 + pps - 1) / pps⟩)]) := by
    unfold rate_limit_consume
    have hl : alookup [(src, (⟨0, t0⟩ : RateLimitEntry))] src = some ⟨0, t0⟩ := by
      simp [alookup]
    simp only [hl]
    rw [wsub64_add t0 ((10 ^ 9 + pps - 1) / pps) (by omega)]
    rw [if_neg (by omega : ¬((10 ^ 9 + pps - 1) / pps > 1000000000))]
    have hadd : ((10 ^ 9 + pps - 1) / pps) * pps / 1000000000 = 1 := by
      generalize hqp : ((10 ^ 9 + pps - 1) / pps) * pps = x at hx1 hx2
      omega
    rw [hadd]
    rw [(by norm_num : ((0 : Nat) + 1) % 2 ^ 64 = 1)]
    rw [if_neg (by omega : ¬((1 : Nat) > pps))]
    rw [if_neg (by omega : ¬((1 : Nat) < 1))]
    simp [aupdate]
  refine ⟨⟨by rw [hstep], ?_⟩, ?_, ?_⟩
  · have hsec := consume_same_instant pps (t0 + (10 ^ 9 + pps - 1) / pps) src 0
      (Nat.zero_le _) h64
    rw [if_pos (by omega : (0 : Nat) < 1)] at hsec
    rw [hstep]
    simpa using congrArg Prod.fst hsec
  · have hfirstb : rate_limit_consume [] pps now src =
        (RateDecision.allowed, [(src, ⟨pps - 1, now⟩)]) := by
      simp [rate_limit_consume, alookup, aupdate]
    rw [rate_limit_burst_step_allowed pps now src pps _ _ hfirstb]
    obtain ⟨hd1, hd2⟩ := rate_limit_burst_drain pps now src h64 pps (pps - 1) (by omega)
    refine ⟨?_, ?_⟩
    · simp only [hd1]
      omega
    · simp only [hd2]
      omega
  · intro m hm
    rcases halu : alookup m src with _ | rl
    · unfold rate_limit_consume at hm
      simp only [halu] at hm
      simp at hm
    · unfold rate_limit_consume at hm ⊢
      simp only [halu] at hm ⊢
      split_ifs at hm ⊢ <;> first
        | rfl
        | simp at hm

/-- C8 (witness): the amended behavior at `capacityPPS = 2`: one packet is
admitted after a 500000000 ns wait and the immediate repeat is Limited; a
simultaneous burst of 3 packets from a fresh source gives 2 Allowed and 1
Limited; a Limited call leaves the map unchanged. -/
theorem token_bucket_refill_witness :
    ((rate_limit_consume [(7, ⟨0, 0⟩)] 2 (0 + (10 ^ 9 + 2 - 1) / 2) 7).1 =
        RateDecision.allowed ∧
      (rate_limit_consume
          (rate_limit_consume [(7, ⟨0, 0⟩)] 2 (0 + (10 ^ 9 + 2 - 1) / 2) 7).2
          2 (0 + (10 ^ 9 + 2 - 1) / 2) 7).1 = RateDecision.limited) ∧
    ((rate_limit_burst 2 0 7 [] (2 + 1)).1 = 2 ∧
      (rate_limit_burst 2 0 7 [] (2 + 1)).2.1 = 1) ∧
    (∀ m, (rate_limit_consume m 2 0 7).1 = RateDecision.limited →
      (rate_limit_consume m 2 0 7).2 = m) :=
  token_bucket_refill 2 0 0 7 (by norm_num) (by norm_num) (by norm_num)

end KgProxy
